import Mathlib

/-!
Shallow embedding of the chat-backend orchestration core in `src/app.py`
(a Flask + Groq streaming app): language registry, prompt builder, language
resolution, message-list assembly, the streaming generator with its
persistence tail, and the chat and feedback request handlers.

External collaborators (the Groq completion service, `langdetect.detect`,
the JSON body parser) are modelled as oracle parameters of type `Except`
or `Option`, following the spec, which treats them as opaque.
-/

namespace App

/-- A JSON scalar value as it can appear in a request field.  Arrays and
nested objects are not needed by any claim and are omitted. -/
inductive JVal where
  | str (s : String)
  | num (n : Int)
  | boolean (b : Bool)
  | null
deriving DecidableEq

/-- One chat turn: a dict with a role field and a content field, as built
throughout src/app.py (lines 222-224, 227-231, 251-254). -/
structure Turn where
  role : String
  content : String
deriving DecidableEq

/-- One entry of LANGUAGE_CONFIG (src/app.py:93-159): an instruction
fragment and a refusal message. -/
structure LangEntry where
  instruction : String
  refusal : String
deriving DecidableEq

/-- The base system prompt BASE_SYSTEM_PROMPT (src/app.py:33-90), transcribed
line by line; the Python triple-quoted literal begins with a newline and ends
with a newline after the final dashes. -/
def BASE_SYSTEM_PROMPT : String :=
  "\n" ++
  "You are \u0027भारतीय चुनाव सलाहकार\u0027 (Indian Election Advisor), an expert, comprehensive,\n" ++
  "and highly knowledgeable AI assistant specializing exclusively in Indian election processes.\n" ++
  "\n" ++
  "*Core Principles:*\n" ++
  "1. **Comprehensive Coverage**: Provide detailed, thorough explanations that cover all aspects\n" ++
  "   of the topic. Include step-by-step processes, requirements, timelines, and practical tips.\n" ++
  "\n" ++
  "2. **Educational Depth**: Explain not just \"what\" but also \"why\" and \"how\". Include background\n" ++
  "   context, legal basis, and practical implications of each process.\n" ++
  "\n" ++
  "3. **Practical Guidance**: Always include:\n" ++
  "   - Complete step-by-step procedures\n" ++
  "   - Required documents and eligibility criteria\n" ++
  "   - Timeline expectations and processing periods\n" ++
  "   - Common challenges and how to overcome them\n" ++
  "   - Alternative methods or backup options\n" ++
  "   - Relevant contact information and resources\n" ++
  "\n" ++
  "4. **Topic Focus**: Your expertise covers:\n" ++
  "   - **Voter Registration**: Complete process, eligibility, documents, online/offline methods\n" ++
  "   - **EPIC Cards**: Application, renewal, corrections, duplicates, status tracking\n" ++
  "   - **Polling Stations**: Location finding, accessibility, facilities, booth-level information\n" ++
  "   - **Election Schedules**: Dates, phases, notifications, important deadlines\n" ++
  "   - **EVM/VVPAT**: Operation, security features, voter experience, troubleshooting\n" ++
  "   - **Voter Rights & Duties**: Legal framework, complaint mechanisms, electoral laws\n" ++
  "   - **Electoral Processes**: Candidate nomination, campaigning rules, counting procedures\n" ++
  "\n" ++
  "5. **Safety Guard**: If asked about topics outside Indian elections (politics, candidates,\n" ++
  "   opinions, other subjects), respond ONLY with the refusal text for the requested language.\n" ++
  "\n" ++
  "6. **Welcome Protocol**: For \"GREET_USER\", provide a warm, detailed introduction with:\n" ++
  "   - Your role and expertise areas\n" ++
  "   - Comprehensive list of services you provide\n" ++
  "   - How users can best utilize your knowledge\n" ++
  "   - Encouraging tone with relevant emojis\n" ++
  "\n" ++
  "7. **Response Structure**: \n" ++
  "   - Start with a brief overview\n" ++
  "   - Provide detailed step-by-step information\n" ++
  "   - Include practical tips and common scenarios\n" ++
  "   - End with relevant resources or next steps\n" ++
  "   - Use clear formatting with headers, bullets, and emphasis\n" ++
  "\n" ++
  "8. **Formatting Standards**:\n" ++
  "   - **Bold headers** for main sections\n" ++
  "   - **Bold terms** for important concepts\n" ++
  "   - Bullet points for processes and lists\n" ++
  "   - Numbered steps for sequential procedures\n" ++
  "   - Emojis for engagement (🗳️, 📝, 📍, 📅, ✅, ⚠️, 💡)\n" ++
  "   - Clear paragraph breaks for readability\n" ++
  "\n" ++
  "Remember: Your goal is to be the most comprehensive, helpful resource for Indian election\n" ++
  "information. Users should leave with complete understanding and confidence to take action.\n" ++
  "\n" ++
  "Now, follow these guidelines and respond in the language specified below.\n" ++
  "---\n"
/-- Entry "hi" of LANGUAGE_CONFIG (src/app.py:93-159). -/
def hi_entry : LangEntry :=
  { instruction := "Language: Respond in detailed, comprehensive Hindi. Provide thorough explanations with complete procedures and practical guidance."
    refusal := "🚫 *माफ करें, मैं केवल भारतीय चुनाव प्रक्रिया के बारे में जानकारी दे सकता हूं। कृपया मतदाता पंजीकरण, EPIC कार्ड, मतदान केंद्र, या अन्य चुनाव संबंधी प्रश्न पूछें।*" }

/-- Entry "en" of LANGUAGE_CONFIG (src/app.py:93-159). -/
def en_entry : LangEntry :=
  { instruction := "Language: Respond in detailed, comprehensive English. Provide thorough explanations with complete procedures and practical guidance."
    refusal := "🚫 *I can only provide information about Indian election processes. Please ask about voter registration, EPIC cards, polling stations, or other election-related topics.*" }

/-- Entry "bn" of LANGUAGE_CONFIG (src/app.py:93-159). -/
def bn_entry : LangEntry :=
  { instruction := "Language: Respond in detailed, comprehensive Bengali. Provide thorough explanations with complete procedures and practical guidance."
    refusal := "🚫 *আমি শুধুমাত্র ভারতীয় নির্বাচন প্রক্রিয়া সম্পর্কে তথ্য দিতে পারি। দয়া করে ভোটার নিবন্ধন, EPIC কার্ড, বা নির্বাচন সংক্রান্ত প্রশ্ন করুন।*" }

/-- Entry "mr" of LANGUAGE_CONFIG (src/app.py:93-159). -/
def mr_entry : LangEntry :=
  { instruction := "Language: Respond in detailed, comprehensive Marathi. Provide thorough explanations with complete procedures and practical guidance."
    refusal := "🚫 *मी फक्त भारतीय निवडणूक प्रक्रियेबद्दल माहिती देऊ शकतो. कृपया मतदार नोंदणी, EPIC कार्ड, किंवा निवडणूक संबंधित प्रश्न विचारा.*" }

/-- Entry "gu" of LANGUAGE_CONFIG (src/app.py:93-159). -/
def gu_entry : LangEntry :=
  { instruction := "Language: Respond in detailed, comprehensive Gujarati. Provide thorough explanations with complete procedures and practical guidance."
    refusal := "🚫 *હું ફક્ત ભારતીય ચૂંટણી પ્રક્રિયા વિશે માહિતી આપી શકું છું. કૃપા કરીને મતદાર નોંધણી, EPIC કાર્ડ, અથવા ચૂંટણી સંબંધિત પ્રશ્નો પૂછો.*" }

/-- Entry "pa" of LANGUAGE_CONFIG (src/app.py:93-159). -/
def pa_entry : LangEntry :=
  { instruction := "Language: Respond in detailed, comprehensive Punjabi. Provide thorough explanations with complete procedures and practical guidance."
    refusal := "🚫 *ਮੈਂ ਸਿਰਫ਼ ਭਾਰਤੀ ਚੋਣ ਪ੍ਰਕਿਰਿਆ ਬਾਰੇ ਜਾਣਕਾਰੀ ਦੇ ਸਕਦਾ ਹਾਂ। ਕਿਰਪਾ ਕਰਕੇ ਵੋਟਰ ਰਜਿਸਟਰੇਸ਼ਨ, EPIC ਕਾਰਡ, ਜਾਂ ਚੋਣ ਸੰਬੰਧੀ ਸਵਾਲ ਪੁੱਛੋ।*" }

/-- Entry "ur" of LANGUAGE_CONFIG (src/app.py:93-159). -/
def ur_entry : LangEntry :=
  { instruction := "Language: Respond in detailed, comprehensive Urdu (Roman script). Provide thorough explanations with complete procedures and practical guidance."
    refusal := "🚫 *Main sirf Bharatiya election process ke bare mein maloomaat de sakta hun. Kripaya voter registration, EPIC card, ya election se mutalliq sawalat poochen.*" }

/-- Entry "or" of LANGUAGE_CONFIG (src/app.py:93-159). -/
def or_entry : LangEntry :=
  { instruction := "Language: Respond in detailed, comprehensive Odia. Provide thorough explanations with complete procedures and practical guidance."
    refusal := "🚫 *ମୁଁ କେବଳ ଭାରତୀୟ ନିର୍ବାଚନ ପ୍ରକ୍ରିୟା ବିଷୟରେ ସୂଚନା ଦେଇପାରେ। ଦୟାକରି ଭୋଟର ପଞ୍ଜୀକରଣ, EPIC କାର୍ଡ, କିମ୍ବା ନିର୍ବାଚନ ସଂପର୍କୀୟ ପ୍ରଶ୍ନ ପଚାରନ୍ତୁ।*" }

/-- Entry "as" of LANGUAGE_CONFIG (src/app.py:93-159). -/
def as_entry : LangEntry :=
  { instruction := "Language: Respond in detailed, comprehensive Assamese. Provide thorough explanations with complete procedures and practical guidance."
    refusal := "🚫 *মই কেৱল ভাৰতীয় নিৰ্বাচন প্ৰক্ৰিয়াৰ বিষয়ে তথ্য দিব পাৰো। দয়া কৰি ভোটাৰ পঞ্জীয়ন, EPIC কাৰ্ড, বা নিৰ্বাচন সম্পৰ্কীয় প্ৰশ্ন সোধক।*" }

/-- Entry "ks" of LANGUAGE_CONFIG (src/app.py:93-159). -/
def ks_entry : LangEntry :=
  { instruction := "Language: Respond in detailed, comprehensive Kashmiri (Roman script). Provide thorough explanations with complete procedures and practical guidance."
    refusal := "🚫 *Bi sirf Bharatiya election process baaras jaankaari dith shakaan. Meharbani karith voter registration, EPIC card ya election-related sawalaat puchiv.*" }

/-- Entry "kok" of LANGUAGE_CONFIG (src/app.py:93-159). -/
def kok_entry : LangEntry :=
  { instruction := "Language: Respond in detailed, comprehensive Konkani. Provide thorough explanations with complete procedures and practical guidance."
    refusal := "🚫 *हांव फकत भारतीय निवडणुकेच्या प्रक्रियेविशीं माहिती दिवंक शकतां. कृपया मतदार नोंदणी, EPIC कार्ड वा निवडणुकेशीं संबंदीत प्रस्न विचारात.*" }

/-- Entry "sd" of LANGUAGE_CONFIG (src/app.py:93-159). -/
def sd_entry : LangEntry :=
  { instruction := "Language: Respond in detailed, comprehensive Sindhi (Roman script). Provide thorough explanations with complete procedures and practical guidance."
    refusal := "🚫 *Mun sirf Bharatiya election process baare maloomaat ڏئي sakun ٿو. Meharbani kari voter registration, EPIC card ya election related sawal puchho.*" }

/-- Entry "ne" of LANGUAGE_CONFIG (src/app.py:93-159). -/
def ne_entry : LangEntry :=
  { instruction := "Language: Respond in detailed, comprehensive Nepali. Provide thorough explanations with complete procedures and practical guidance."
    refusal := "🚫 *म केवल भारतीय चुनाव प्रक्रियाको बारेमा जानकारी दिन सक्छु। कृपया मतदाता दर्ता, EPIC कार्ड, वा चुनाव सम्बन्धी प्रश्नहरू सोध्नुहोस्।*" }

/-- Entry "doi" of LANGUAGE_CONFIG (src/app.py:93-159). -/
def doi_entry : LangEntry :=
  { instruction := "Language: Respond in detailed, comprehensive Dogri (Roman script). Provide thorough explanations with complete procedures and practical guidance."
    refusal := "🚫 *Main sirf Bharatiya election process de baare jaanakari de sakda. Kripaya voter registration, EPIC card ya election related sawal pucho.*" }

/-- Entry "brx" of LANGUAGE_CONFIG (src/app.py:93-159). -/
def brx_entry : LangEntry :=
  { instruction := "Language: Respond in detailed, comprehensive Bodo. Provide thorough explanations with complete procedures and practical guidance."
    refusal := "🚫 *Ang sirf Bharatiya election processni thangkha jaanakari kousak gathang. Kripa haba voter registration, EPIC card bage election related hola phusolai.*" }

/-- Entry "sat" of LANGUAGE_CONFIG (src/app.py:93-159). -/
def sat_entry : LangEntry :=
  { instruction := "Language: Respond in detailed, comprehensive Santali (Roman script). Provide thorough explanations with complete procedures and practical guidance."
    refusal := "🚫 *Ing khali Bharatiya election process araete babodte paarkom. Daaya katet voter registration, EPIC card kimba election okoyre kushiyako kuli me.*" }

/-- Entry "ta" of LANGUAGE_CONFIG (src/app.py:93-159). -/
def ta_entry : LangEntry :=
  { instruction := "Language: Respond in detailed, comprehensive Tamil. Provide thorough explanations with complete procedures and practical guidance."
    refusal := "🚫 *நான் இந்திய தேர்தல் செயல்முறைகளைப் பற்றி மட்டுமே தகவல் அளிக்க முடியும். தயவுசெய்து வாக்காளர் பதிவு, EPIC அட்டை, அல்லது தேர்தல் தொடர்பான கேள்விகளைக் கேளுங்கள்.*" }

/-- Entry "te" of LANGUAGE_CONFIG (src/app.py:93-159). -/
def te_entry : LangEntry :=
  { instruction := "Language: Respond in detailed, comprehensive Telugu. Provide thorough explanations with complete procedures and practical guidance."
    refusal := "🚫 *నేను భారతీయ ఎన్నికల ప్రక్రియల గురించి మాత్రమే సమాచారం అందించగలను. దయచేసి ఓటరు నమోదు, EPIC కార్డు, లేదా ఎన్నికల సంబంధిత ప్రశ్నలు అడగండి.*" }

/-- Entry "kn" of LANGUAGE_CONFIG (src/app.py:93-159). -/
def kn_entry : LangEntry :=
  { instruction := "Language: Respond in detailed, comprehensive Kannada. Provide thorough explanations with complete procedures and practical guidance."
    refusal := "🚫 *ನಾನು ಭಾರತೀಯ ಚುನಾವಣಾ ಪ್ರಕ್ರಿಯೆಗಳ ಬಗ್ಗೆ ಮಾತ್ರ ಮಾಹಿತಿ ನೀಡಬಲ್ಲೆ. ದಯವಿಟ್ಟು ಮತದಾರ ನೋಂದಣಿ, EPIC ಕಾರ್ಡ್, ಅಥವಾ ಚುನಾವಣೆ ಸಂಬಂಧಿತ ಪ್ರಶ್ನೆಗಳನ್ನು ಕೇಳಿ.*" }

/-- Entry "ml" of LANGUAGE_CONFIG (src/app.py:93-159). -/
def ml_entry : LangEntry :=
  { instruction := "Language: Respond in detailed, comprehensive Malayalam. Provide thorough explanations with complete procedures and practical guidance."
    refusal := "🚫 *എനിക്ക് ഇന്ത്യൻ തിരഞ്ഞെടുപ്പ് പ്രക്രിയകളെ കുറിച്ച് മാത്രമേ വിവരങ്ങൾ നൽകാൻ കഴിയൂ. ദയവായി വോട്ടർ രജിസ്ട്രേഷൻ, EPIC കാർഡ്, അല്ലെങ്കിൽ തിരഞ്ഞെടുപ്പ് സംബന്ധിച്ച ചോദ്യങ്ങൾ ചോദിക്കുക.*" }

/-- Entry "mni" of LANGUAGE_CONFIG (src/app.py:93-159). -/
def mni_entry : LangEntry :=
  { instruction := "Language: Respond in detailed, comprehensive Manipuri (Meitei, Roman script). Provide thorough explanations with complete procedures and practical guidance."
    refusal := "🚫 *Ei sirf Bharatiya election processgi maramda information piba ngammi. Charaakkhro voter registration, EPIC card nattraga election mareldaba wahang hangbi puraaku.*" }

/-- The language table LANGUAGE_CONFIG (src/app.py:93-159), as an ordered
association list from language code to entry, in dict insertion order. -/
def LANGUAGE_CONFIG : List (String × LangEntry) :=
  [("hi", hi_entry),
   ("en", en_entry),
   ("bn", bn_entry),
   ("mr", mr_entry),
   ("gu", gu_entry),
   ("pa", pa_entry),
   ("ur", ur_entry),
   ("or", or_entry),
   ("as", as_entry),
   ("ks", ks_entry),
   ("kok", kok_entry),
   ("sd", sd_entry),
   ("ne", ne_entry),
   ("doi", doi_entry),
   ("brx", brx_entry),
   ("sat", sat_entry),
   ("ta", ta_entry),
   ("te", te_entry),
   ("kn", kn_entry),
   ("ml", ml_entry),
   ("mni", mni_entry)]

/-- Prompt builder get_system_prompt (src/app.py:162-164): look up the code
in LANGUAGE_CONFIG with LANGUAGE_CONFIG["hi"] as the default, then build
the f-string of the base prompt, a newline, and the entry instruction. -/
def get_system_prompt (lang_code : String) : String :=
  BASE_SYSTEM_PROMPT ++ ("\n" ++ ((LANGUAGE_CONFIG.lookup lang_code).getD hi_entry).instruction)

/-- Python str.strip(): remove leading and trailing whitespace.  Defined
over the character list so that concrete instances evaluate in the kernel. -/
def py_strip (s : String) : String :=
  ⟨((s.data.dropWhile Char.isWhitespace).reverse.dropWhile Char.isWhitespace).reverse⟩

/-- Evaluation of data.get("message", "").strip() (src/app.py:204).  When
the field is absent the default "" is stripped; when it holds a string,
that string is stripped; when it holds any non-string JSON value, the
attribute access .strip raises AttributeError (TypeError-style failure
outside the validation branch), which no enclosing block catches. -/
def message_strip (message : Option JVal) : Except String String :=
  match message with
  | none => Except.ok (py_strip (""))
  | some (JVal.str s) => Except.ok (py_strip s)
  | some _ => Except.error ("AttributeError")

/-- Python truthiness of an optional string: None and "" are falsy. -/
def py_truthy (a : Option String) : Bool :=
  match a with
  | some s => !(s = "")
  | none => false

/-- Python `a or b` over optional strings: keep `a` when truthy, else `b`. -/
def py_or (a b : Option String) : Option String :=
  match a with
  | some s => if s = "" then b else some s
  | none => b

/-- Language resolution of the chat handler (src/app.py:210-213):

    frontend_lang = data.get("lang")
    detected_lang = detect(user_message) if not frontend_lang else None
    lang_code = (frontend_lang or detected_lang or "hi").lower()

detect is the external langdetect classifier, passed here as an oracle:
`Except.ok code` when it returns, `Except.error ()` when it raises
LangDetectException.  The call at line 212 sits outside every try block,
so a raising detector aborts the handler unhandled. -/
def resolve_lang_code (frontend_lang : Option String)
    (detect_result : Except Unit String) : Except String String :=
  if py_truthy frontend_lang then
    Except.ok (((py_or frontend_lang (some ("hi"))).getD ("hi")).toLower)
  else
    match detect_result with
    | Except.error _ => Except.error ("LangDetectException")
    | Except.ok detected_lang =>
        Except.ok (((py_or frontend_lang (py_or (some detected_lang) (some ("hi")))).getD ("hi")).toLower)

/-- Registry fallback of the chat handler (src/app.py:214-215): a code not
present in LANGUAGE_CONFIG is replaced by "hi". -/
def registry_fallback (lang_code : String) : String :=
  if (LANGUAGE_CONFIG.lookup lang_code).isSome then lang_code else ("hi")

/-- Message-list assembly (src/app.py:220-231): when the stored history is
empty and the (stripped) user message is the greeting trigger literal, the
list is exactly the system turn and the trigger user turn; otherwise it is
the system turn, the stored history in order, and the new user turn. -/
def messages_for_api (system_prompt : String) (chat_history : List Turn)
    (user_message : String) : List Turn :=
  if chat_history = [] ∧ user_message = "GREET_USER" then
    [{ role := "system", content := system_prompt },
     { role := "user", content := "GREET_USER" }]
  else
    { role := "system", content := system_prompt } ::
      (chat_history ++ [{ role := "user", content := user_message }])

/-- One statement of a straight-line rendering of a Python function body,
reduced to the names it reads (in evaluation order) and the name it binds,
if it is an assignment or a loop target. -/
structure PyStmt where
  reads : List String
  binds : Option String

/-- Names bound anywhere in a body.  CPython scoping rule: every name
assigned anywhere in a function body is local to the whole body, whatever
the position of the assignment. -/
def boundNames (body : List PyStmt) : List String :=
  body.filterMap (fun st => st.binds)

/-- Walk the body in order, tracking which locals have been assigned; the
first read of a local that has not yet been assigned is returned. -/
def firstUnboundReadAux (locs : List String) (assigned : List String) :
    List PyStmt → Option String
  | [] => none
  | st :: rest =>
    match st.reads.find? (fun n => locs.contains n && !(assigned.contains n)) with
    | some n => some n
    | none =>
        firstUnboundReadAux locs
          (match st.binds with
           | some t => t :: assigned
           | none => assigned) rest

/-- First local name read before its first assignment when the body runs in
program order: in CPython such a read raises UnboundLocalError for that
name. -/
def firstUnboundLocalRead (body : List PyStmt) : Option String :=
  firstUnboundReadAux (boundNames body) [] body

/-- The body of the nested generator generate_chunks (src/app.py:235-258),
statement by statement.  The loop statements are rendered once, in program
order; this suffices for binding analysis because the set of assigned
names, hence the set of locals, does not depend on the iteration count,
and the first read of chat_history (the extend call at line 251) lies
after the whole loop in every execution that reaches it. -/
def generate_chunks_body : List PyStmt :=
  [ -- full_resp = "" (line 236)
    { reads := [], binds := some ("full_resp") },
    -- stream = client.chat.completions.create(...) (lines 237-243)
    { reads := ["client", "messages_for_api", "GROQ_MODEL", "TEMPERATURE"],
      binds := some ("stream") },
    -- for chunk in stream: (line 244)
    { reads := ["stream"], binds := some ("chunk") },
    -- token = chunk.choices[0].delta.content (line 245)
    { reads := ["chunk"], binds := some ("token") },
    -- if token: full_resp += token (lines 246-247)
    { reads := ["token", "full_resp"], binds := some ("full_resp") },
    -- yield token (line 248)
    { reads := ["token"], binds := none },
    -- chat_history.extend([the user turn, the assistant turn]) (lines 251-254)
    { reads := ["chat_history", "user_message", "full_resp"], binds := none },
    -- if len(chat_history) > 10: chat_history = chat_history[-10:] (lines 256-257)
    { reads := ["chat_history"], binds := some ("chat_history") },
    -- session["chat_history"] = chat_history (line 258)
    { reads := ["session", "chat_history"], binds := none } ]

/-- The tokens actually yielded by the streaming loop (src/app.py:244-248):
each chunk delta content that is truthy, i.e. neither None nor empty. -/
def deltas (chunks : List (Option String)) : List String :=
  chunks.filterMap (fun c =>
    match c with
    | some t => if t = "" then none else some t
    | none => none)

/-- The list the persistence tail of generate_chunks is written to store
(src/app.py:251-257, as written): append the user turn and the assistant
turn, then keep only the last 10 turns when the total exceeds 10. -/
def extend_and_trim (chat_history : List Turn) (user_message : String)
    (full_resp : String) : List Turn :=
  let extended := chat_history ++
    [{ role := "user", content := user_message },
     { role := "assistant", content := full_resp }]
  if extended.length > 10 then extended.drop (extended.length - 10) else extended

/-- Executing the persistence tail (src/app.py:250-258) once the stream is
exhausted.  chat_history is assigned at line 257, which under the CPython
scoping rule makes it a local of generate_chunks for the entire body, so
the read at line 251 is a read of a never-assigned local: the tail raises
UnboundLocalError and the session write at line 258 is not reached.  The
ok branch states what the tail would store if every read were bound. -/
def run_persistence (chat_history : List Turn) (user_message : String)
    (full_resp : String) : Except String (List Turn) :=
  match firstUnboundLocalRead generate_chunks_body with
  | some n => Except.error ("UnboundLocalError " ++ n)
  | none => Except.ok (extend_and_trim chat_history user_message full_resp)

/-- The observable HTTP-level outcome of a request. -/
inductive HttpResponse where
  /-- jsonify of an object with an error field, plus an explicit status. -/
  | jsonError (status : Nat) (error : String)
  /-- jsonify of an object with a status field and a message field
  (HTTP status 200). -/
  | jsonOk (statusField : String) (message : String)
  /-- An exception escaped the handler before a response was built; the
  framework produces its own generic error page, not a handler body. -/
  | unhandled (exn : String)
  /-- A streamed text/plain response that ended cleanly after the given
  tokens. -/
  | streamOk (tokens : List String)
  /-- A streamed text/plain response: the tokens were forwarded to the
  client, then the generator raised the given exception, which escapes to
  the framework mid-response; the handler except branch has long returned
  and cannot turn it into a JSON body. -/
  | streamRaised (tokens : List String) (exn : String)
deriving DecidableEq

/-- Everything observable from one POST /chat request: the response, the
value written to session["chat_history"] (none when the write at
src/app.py:258 never executes), and the message list passed to
client.chat.completions.create (none when the gateway is never invoked). -/
structure ChatResult where
  response : HttpResponse
  session_write : Option (List Turn)
  messages_sent : Option (List Turn)
deriving DecidableEq

/-- The POST /chat handler (src/app.py:201-267) together with the framework
iteration of its streamed response.

Oracle parameters for the external collaborators:
* message, lang: the parsed JSON body fields;
* detect_result: outcome of langdetect.detect on the message (error means
  the detector raised LangDetectException);
* upstream: outcome of client.chat.completions.create plus iteration of
  the returned stream (error means the call raised; ok cs means the stream
  yielded the chunk delta contents cs, then signalled end of stream);
* session_chat_history: the value of session.get("chat_history", []).

The try block at src/app.py:234 encloses only the construction of the
generator object and of the Response; the generator body first runs when
the framework iterates the response, after chat() has returned, so every
exception raised inside generate_chunks -- including one from the create
call -- escapes to the framework, and the except branch at line 265 never
handles it.  Within the generator, the persistence tail always raises
UnboundLocalError (see run_persistence), so the session is never written. -/
def chat (message : Option JVal) (lang : Option String)
    (detect_result : Except Unit String)
    (upstream : Except Unit (List (Option String)))
    (session_chat_history : List Turn) : ChatResult :=
  match message_strip message with
  | Except.error exn =>
      { response := HttpResponse.unhandled exn, session_write := none,
        messages_sent := none }
  | Except.ok user_message =>
    if user_message = "" then
      { response := HttpResponse.jsonError 400 ("Invalid message."),
        session_write := none, messages_sent := none }
    else
      match resolve_lang_code lang detect_result with
      | Except.error exn =>
          { response := HttpResponse.unhandled exn, session_write := none,
            messages_sent := none }
      | Except.ok resolved =>
        let lang_code := registry_fallback resolved
        let system_prompt := get_system_prompt lang_code
        let chat_history := session_chat_history
        let msgs := messages_for_api system_prompt chat_history user_message
        match upstream with
        | Except.error _ =>
            { response := HttpResponse.streamRaised [] ("UpstreamException"),
              session_write := none, messages_sent := some msgs }
        | Except.ok chunks =>
            let tokens := deltas chunks
            let full_resp := String.join tokens
            match run_persistence chat_history user_message full_resp with
            | Except.error exn =>
                { response := HttpResponse.streamRaised tokens exn,
                  session_write := none, messages_sent := some msgs }
            | Except.ok stored =>
                { response := HttpResponse.streamOk tokens,
                  session_write := some stored, messages_sent := some msgs }

/-- The parsed JSON body of a POST /feedback request: the five fields the
handler reads (src/app.py:171-176), each possibly absent. -/
structure FeedbackPayload where
  user_message : Option JVal
  bot_response : Option JVal
  feedback_type : Option JVal
  comment : Option JVal
  language : Option JVal
deriving DecidableEq

/-- Python slicing v[:100] (src/app.py:180): defined on strings, raises
TypeError on the non-subscriptable scalar values. -/
def py_slice100 (v : JVal) : Except String JVal :=
  match v with
  | JVal.str s => Except.ok (JVal.str (s.take 100))
  | _ => Except.error ("TypeError")

/-- Outcome of one POST /feedback request: the response, and the comment
value reaching the log line at src/app.py:181 (none if never logged). -/
structure FeedbackResult where
  response : HttpResponse
  comment_logged : Option JVal
deriving DecidableEq

/-- The POST /feedback handler (src/app.py:167-193).  The payload oracle is
Except.error when request.json raises (unparseable body or wrong content
type -- the raised BadRequest is an Exception, caught by the except branch),
Except.ok none when the body is JSON null (request.json or handles it), and
Except.ok (some p) for a parsed object.  Every field is read with a
default, so absent fields never raise; slicing a present non-string
user_message raises TypeError inside the try, which the except branch
turns into the generic 500. -/
def feedback (payload : Except Unit (Option FeedbackPayload)) : FeedbackResult :=
  match payload with
  | Except.error _ =>
      { response := HttpResponse.jsonError 500 ("Failed to process feedback"),
        comment_logged := none }
  | Except.ok p =>
      let data := p.getD { user_message := none, bot_response := none,
                           feedback_type := none, comment := none, language := none }
      let user_message := data.user_message.getD (JVal.str (""))
      let comment := data.comment.getD (JVal.str (""))
      match py_slice100 user_message with
      | Except.error _ =>
          { response := HttpResponse.jsonError 500 ("Failed to process feedback"),
            comment_logged := none }
      | Except.ok _ =>
          { response := HttpResponse.jsonOk ("success") ("Feedback received successfully"),
            comment_logged := some comment }

/-- A feedback request source that makes the handler fail: the body was
unparseable, or the user_message field holds a non-string value. -/
def fb_malformed (q : Except Unit (Option FeedbackPayload)) : Prop :=
  q = Except.error () ∨
    ∃ pl, q = Except.ok (some pl) ∧ pl.user_message ≠ none ∧
      ∀ s, pl.user_message ≠ some (JVal.str s)

end App

/-- Payload used to instantiate the claim C9 theorem: a feedback submission
with bot_response, comment and language absent. -/
def C9_payload : App.FeedbackPayload :=
  { user_message := some (App.JVal.str ("good bot")),
    bot_response := none,
    feedback_type := some (App.JVal.str ("positive")),
    comment := none,
    language := none }

/-- Claim C1 (code bug, evaluated at the failing input): for the valid
request with message "hello" and lang "en", when the upstream create call
raises before yielding any token, the exception escapes while the framework
iterates the streamed response -- after chat() has returned -- so the
handler does NOT produce the documented 500 JSON body with error field
"An error occurred while communicating with the AI."; the session history
is indeed left unchanged (no write occurs). -/
theorem C1_upstream_error_no_500_body :
    (App.chat (some (App.JVal.str ("hello"))) (some ("en")) (Except.ok ("en"))
        (Except.error ()) []).response =
      App.HttpResponse.streamRaised [] ("UpstreamException") ∧
    (App.chat (some (App.JVal.str ("hello"))) (some ("en")) (Except.ok ("en"))
        (Except.error ()) []).session_write = none ∧
    (App.chat (some (App.JVal.str ("hello"))) (some ("en")) (Except.ok ("en"))
        (Except.error ()) []).response ≠
      App.HttpResponse.jsonError 500 ("An error occurred while communicating with the AI.") := by
  have h1 : (App.chat (some (App.JVal.str ("hello"))) (some ("en")) (Except.ok ("en"))
      (Except.error ()) []).response =
      App.HttpResponse.streamRaised [] ("UpstreamException") := rfl
  refine ⟨h1, rfl, ?_⟩
  rw [h1]
  intro hc
  exact App.HttpResponse.noConfusion hc

/-- Claim C2 (code bug, evaluated at the failing input): for a valid
message with lang omitted, when automatic language detection raises
(gibberish the classifier cannot handle), the exception propagates out of
the handler unhandled -- the detect call at src/app.py:212 sits outside
every try block -- so there is no fallback to the default code and the
request is not served; the completion gateway is never reached. -/
theorem C2_detect_failure_unhandled :
    App.chat (some (App.JVal.str ("qwertyui"))) none (Except.error ()) (Except.ok []) [] =
      { response := App.HttpResponse.unhandled ("LangDetectException"),
        session_write := none, messages_sent := none } := rfl

/-- Claim C3 (code bug, evaluated at the failing input): after a chat turn
whose stream completes normally, no turns are appended to the session
history at all: chat_history is bound by the assignment at src/app.py:257,
which makes it local to generate_chunks, so the extend call at line 251
reads an unassigned local and raises UnboundLocalError; the session write
at line 258 never executes, and the append-then-trim behaviour the claim
describes never takes place. -/
theorem C3_append_and_trim_never_runs :
    (App.chat (some (App.JVal.str ("hello"))) (some ("en")) (Except.ok ("en"))
        (Except.ok [some ("Hi")])
        [{ role := "user", content := "q0" },
         { role := "assistant", content := "a0" }]).response =
      App.HttpResponse.streamRaised ["Hi"] ("UnboundLocalError chat_history") ∧
    (App.chat (some (App.JVal.str ("hello"))) (some ("en")) (Except.ok ("en"))
        (Except.ok [some ("Hi")])
        [{ role := "user", content := "q0" },
         { role := "assistant", content := "a0" }]).session_write = none ∧
    App.firstUnboundLocalRead App.generate_chunks_body = some ("chat_history") ∧
    ("chat_history") ∈ App.boundNames App.generate_chunks_body :=
  ⟨rfl, rfl, rfl, by decide⟩

/-- Claim C4 (code bug, evaluated at the failing input): even when the
entire token stream is consumed (here four chunks, two of them falsy and
skipped), the pair of user and assistant turns is never persisted: the
persistence tail raises UnboundLocalError after the final token, so the
session history is left unchanged on every path -- persistence does not
happen after full consumption, contrary to the claim. -/
theorem C4_no_persistence_after_full_stream :
    (App.chat (some (App.JVal.str ("hola"))) (some ("hi")) (Except.ok ("hi"))
        (Except.ok [some ("A"), none, some (""), some ("B")]) []).response =
      App.HttpResponse.streamRaised ["A", "B"] ("UnboundLocalError chat_history") ∧
    (App.chat (some (App.JVal.str ("hola"))) (some ("hi")) (Except.ok ("hi"))
        (Except.ok [some ("A"), none, some (""), some ("B")]) []).session_write = none :=
  ⟨rfl, rfl⟩

/-- Claim C5: the assembled message list is exactly the system turn followed
by the greeting-trigger user turn, and nothing else, precisely when the
stored history is empty and the user message equals "GREET_USER"; in every
other case it is the system turn, the stored history in order, and the new
user turn. -/
theorem C5_messages_assembly (system_prompt : String) (chat_history : List App.Turn)
    (user_message : String) :
    (chat_history = [] ∧ user_message = "GREET_USER" →
      App.messages_for_api system_prompt chat_history user_message =
        [{ role := "system", content := system_prompt },
         { role := "user", content := "GREET_USER" }]) ∧
    (¬(chat_history = [] ∧ user_message = "GREET_USER") →
      App.messages_for_api system_prompt chat_history user_message =
        { role := "system", content := system_prompt } ::
          (chat_history ++ [{ role := "user", content := user_message }])) := by
  constructor
  · rintro ⟨h1, h2⟩
    subst h1
    subst h2
    simp [App.messages_for_api]
  · intro h
    unfold App.messages_for_api
    rw [if_neg h]

/-- Witness for claim C5 at concrete inputs: the greeting case with empty
history yields exactly the two turns, and a non-greeting message with a
one-turn history yields system turn, history, then the new user turn. -/
theorem C5_messages_assembly_witness :
    App.messages_for_api ("SYS") [] ("GREET_USER") =
      [{ role := "system", content := "SYS" },
       { role := "user", content := "GREET_USER" }] ∧
    App.messages_for_api ("SYS") [{ role := "user", content := "q0" }] ("hello") =
      { role := "system", content := "SYS" } ::
        ([{ role := "user", content := "q0" }] ++ [{ role := "user", content := "hello" }]) :=
  ⟨(C5_messages_assembly ("SYS") [] ("GREET_USER")).1 ⟨rfl, rfl⟩,
   (C5_messages_assembly ("SYS") [{ role := "user", content := "q0" }] ("hello")).2
     (by decide)⟩

/-- Claim C6: a missing or empty message field is rejected with status 400
and error body "Invalid message.", the session is not written, and the
completion gateway is never invoked (no message list is ever sent),
whatever the language hint, the detector outcome, the upstream outcome and
the stored history. -/
theorem C6_invalid_message_400 (message : Option App.JVal)
    (h : message = none ∨ message = some (App.JVal.str ("")))
    (lang : Option String) (detect_result : Except Unit String)
    (upstream : Except Unit (List (Option String))) (hist : List App.Turn) :
    App.chat message lang detect_result upstream hist =
      { response := App.HttpResponse.jsonError 400 ("Invalid message."),
        session_write := none, messages_sent := none } := by
  rcases h with h | h <;> subst h <;> rfl

/-- Witness for claim C6 at a concrete input: the empty-string message. -/
theorem C6_invalid_message_400_witness :
    App.chat (some (App.JVal.str (""))) none (Except.ok ("hi")) (Except.ok []) [] =
      { response := App.HttpResponse.jsonError 400 ("Invalid message."),
        session_write := none, messages_sent := none } :=
  C6_invalid_message_400 (some (App.JVal.str (""))) (Or.inr rfl) none (Except.ok ("hi"))
    (Except.ok []) []

/-- Claim C7: for every code absent from the registry, the chat handler
fallback replaces it with the default code "hi", and the prompt builder
uses the default entry (the prompt it returns is the base prompt plus the
default instruction); neither path can fail, both being total functions. -/
theorem C7_unknown_code_fallback (code : String)
    (h : App.LANGUAGE_CONFIG.lookup code = none) :
    App.registry_fallback code = "hi" ∧
    App.get_system_prompt code =
      App.BASE_SYSTEM_PROMPT ++ ("\n" ++ App.hi_entry.instruction) := by
  constructor
  · unfold App.registry_fallback
    rw [h]
    rfl
  · unfold App.get_system_prompt
    rw [h]
    rfl

/-- Witness for claim C7 at a concrete input: the unknown code "xx". -/
theorem C7_unknown_code_fallback_witness :
    App.registry_fallback ("xx") = "hi" ∧
    App.get_system_prompt ("xx") =
      App.BASE_SYSTEM_PROMPT ++ ("\n" ++ App.hi_entry.instruction) :=
  C7_unknown_code_fallback ("xx") (by decide)

/-- Claim C8: for every code present in the registry, the built system
prompt is the base prompt -- verbatim, as a prefix -- followed by exactly
one instruction fragment, namely a newline and that code entry instruction
and nothing else. -/
theorem C8_prompt_base_and_fragment (code : String) (entry : App.LangEntry)
    (h : App.LANGUAGE_CONFIG.lookup code = some entry) :
    ∃ rest, App.get_system_prompt code = App.BASE_SYSTEM_PROMPT ++ rest ∧
      rest = "\n" ++ entry.instruction := by
  refine ⟨"\n" ++ entry.instruction, ?_, rfl⟩
  unfold App.get_system_prompt
  rw [h]
  rfl

/-- Witness for claim C8 at a concrete input: the registered code "ta". -/
theorem C8_prompt_base_and_fragment_witness :
    ∃ rest, App.get_system_prompt ("ta") = App.BASE_SYSTEM_PROMPT ++ rest ∧
      rest = "\n" ++ App.ta_entry.instruction :=
  C8_prompt_base_and_fragment ("ta") App.ta_entry (by rfl)

/-- Claim C9: for a parsed feedback payload whose user_message field is
absent or a string, the handler returns 200 with a success status whatever
fields are missing (it never raises on missing optional fields), a missing
comment defaults to the fixed placeholder value, the empty string; and a
500 failure is returned only for a malformed payload (unparseable body, or
a user_message holding a non-string value, whose slicing raises inside the
try block). -/
theorem C9_feedback_defaults_and_500 (pl : App.FeedbackPayload)
    (hwf : pl.user_message = none ∨ ∃ s, pl.user_message = some (App.JVal.str s)) :
    (App.feedback (Except.ok (some pl))).response =
      App.HttpResponse.jsonOk ("success") ("Feedback received successfully") ∧
    (pl.comment = none →
      (App.feedback (Except.ok (some pl))).comment_logged = some (App.JVal.str (""))) ∧
    ∀ q, (App.feedback q).response =
        App.HttpResponse.jsonError 500 ("Failed to process feedback") →
      App.fb_malformed q := by
  refine ⟨?_, ?_, ?_⟩
  · rcases hwf with h | ⟨s, h⟩ <;> simp [App.feedback, App.py_slice100, h]
  · intro hc
    rcases hwf with h | ⟨s, h⟩ <;> simp [App.feedback, App.py_slice100, h, hc]
  · intro q hq
    match q with
    | Except.error () => exact Or.inl rfl
    | Except.ok none => exact absurd hq (by simp [App.feedback, App.py_slice100])
    | Except.ok (some pl2) =>
      match hum : pl2.user_message with
      | none =>
          exact absurd hq (by simp [App.feedback, App.py_slice100, hum])
      | some (App.JVal.str s) =>
          exact absurd hq (by simp [App.feedback, App.py_slice100, hum])
      | some (App.JVal.num n) =>
          exact Or.inr ⟨pl2, rfl, by simp [hum], by intro s; simp [hum]⟩
      | some (App.JVal.boolean b) =>
          exact Or.inr ⟨pl2, rfl, by simp [hum], by intro s; simp [hum]⟩
      | some App.JVal.null =>
          exact Or.inr ⟨pl2, rfl, by simp [hum], by intro s; simp [hum]⟩

/-- Witness for claim C9 at a concrete input: a payload with bot_response,
comment and language missing is acknowledged with 200, and the logged
comment is the placeholder empty string. -/
theorem C9_feedback_defaults_and_500_witness :
    (App.feedback (Except.ok (some C9_payload))).response =
      App.HttpResponse.jsonOk ("success") ("Feedback received successfully") ∧
    (App.feedback (Except.ok (some C9_payload))).comment_logged =
      some (App.JVal.str ("")) :=
  ⟨(C9_feedback_defaults_and_500 C9_payload (Or.inr ⟨"good bot", rfl⟩)).1,
   (C9_feedback_defaults_and_500 C9_payload (Or.inr ⟨"good bot", rfl⟩)).2.1 rfl⟩

/-- Claim C10: a present but non-string message field bypasses the
validation branch entirely: the attribute access .strip() raises first, so
the handler fails with an unhandled AttributeError and never returns the
400 response with body "Invalid message."; the gateway is not invoked. -/
theorem C10_nonstring_message_unhandled (v : App.JVal)
    (h : ∀ s, v ≠ App.JVal.str s)
    (lang : Option String) (detect_result : Except Unit String)
    (upstream : Except Unit (List (Option String))) (hist : List App.Turn) :
    App.chat (some v) lang detect_result upstream hist =
      { response := App.HttpResponse.unhandled ("AttributeError"),
        session_write := none, messages_sent := none } ∧
    (App.chat (some v) lang detect_result upstream hist).response ≠
      App.HttpResponse.jsonError 400 ("Invalid message.") := by
  have h1 : App.chat (some v) lang detect_result upstream hist =
      { response := App.HttpResponse.unhandled ("AttributeError"),
        session_write := none, messages_sent := none } := by
    cases v with
    | str s => exact absurd rfl (h s)
    | num n => rfl
    | boolean b => rfl
    | null => rfl
  refine ⟨h1, ?_⟩
  rw [h1]
  intro hc
  exact App.HttpResponse.noConfusion hc

/-- Witness for claim C10 at a concrete input: the numeric message 3. -/
theorem C10_nonstring_message_unhandled_witness :
    App.chat (some (App.JVal.num 3)) none (Except.ok ("hi")) (Except.ok []) [] =
      { response := App.HttpResponse.unhandled ("AttributeError"),
        session_write := none, messages_sent := none } ∧
    (App.chat (some (App.JVal.num 3)) none (Except.ok ("hi")) (Except.ok []) []).response ≠
      App.HttpResponse.jsonError 400 ("Invalid message.") :=
  C10_nonstring_message_unhandled (App.JVal.num 3) (by intro s hc; cases hc) none
    (Except.ok ("hi")) (Except.ok []) []
